import Mathlib

/-!
Shallow embedding of the Ballu ASP-100 integration (mqtt_client.py and
climate.py) and verification of the specification's claims about it.
-/

namespace BalluSpec

/-! ## Topic matcher (mqtt_client.py, `_topic_matches`) -/

/-- Accumulator pass of `splitSlash`: splits a character list at every
slash, keeping empty segments, as Python `str.split('/')` does. -/
def splitCharsAux : List Char → List Char → List (List Char)
  | [], acc => [acc.reverse]
  | c :: rest, acc =>
    if c = '/' then acc.reverse :: splitCharsAux rest []
    else splitCharsAux rest (c :: acc)

/-- Models Python `s.split('/')`. -/
def splitSlash (s : String) : List String :=
  (splitCharsAux s.toList []).map (fun l => String.mk l)

/-- The wildcard-matching loop of `_topic_matches` over the already split
segment lists.  Mirrors the Python `for i, sub_part in enumerate(sub_parts)`
loop: running out of topic segments returns `False`; a `+` segment skips;
a `#` segment returns `True`; a literal mismatch returns `False`; when the
pattern segments are exhausted the result is the equal-length check. -/
def matchParts : List String → List String → Bool
  | [], ts => ts.isEmpty
  | _ :: _, [] => false
  | s :: ss, t :: ts =>
    if s = "+" then matchParts ss ts
    else if s = "#" then true
    else if s ≠ t then false
    else matchParts ss ts

/-- Mirrors `BalluMQTTClient._topic_matches`: exact equality first, then the
wildcard path when the subscription contains a `+` or `#` character. -/
def _topic_matches (subscription topic : String) : Bool :=
  if subscription = topic then true
  else if subscription.toList.contains '+' || subscription.toList.contains '#' then
    matchParts (splitSlash subscription) (splitSlash topic)
  else false

/-! ## Python builtin models used by the source -/

/-- Value of a list of decimal digit characters, most significant first. -/
def digitsToNat (l : List Char) : Nat :=
  l.foldl (fun a c => a * 10 + (c.toNat - 48)) 0

/-- Models Python `int(payload)` on the payload strings this code receives:
an optional sign followed by one or more decimal digits parses to that
integer, anything else raises `ValueError`, modelled as `none`. -/
def pyParseInt (s : String) : Option Int :=
  match s.toList with
  | '-' :: rest =>
    if rest ≠ [] ∧ rest.all Char.isDigit then some (-(digitsToNat rest : Int)) else none
  | '+' :: rest =>
    if rest ≠ [] ∧ rest.all Char.isDigit then some (digitsToNat rest : Int) else none
  | l =>
    if l ≠ [] ∧ l.all Char.isDigit then some (digitsToNat l : Int) else none

/-- Models the digits-then-optional-fraction body of Python `float`. -/
def parseUnsignedRat (l : List Char) : Option ℚ :=
  let intPart := l.takeWhile Char.isDigit
  let rest := l.dropWhile Char.isDigit
  match rest with
  | [] => if intPart = [] then none else some (digitsToNat intPart : ℚ)
  | '.' :: frac =>
    if frac.all Char.isDigit ∧ (intPart ≠ [] ∨ frac ≠ []) then
      some ((digitsToNat intPart : ℚ) + (digitsToNat frac : ℚ) / ((10 : ℚ) ^ frac.length))
    else none
  | _ => none

/-- Models Python `float(payload)` on the decimal payloads of this protocol,
with real numbers embedded as exact rationals (the integers 5..25 this code
exchanges are exactly representable, so no rounding is lost).  Non-numeric
input raises `ValueError`, modelled as `none`. -/
def pyFloat (s : String) : Option ℚ :=
  match s.toList with
  | '-' :: rest => (parseUnsignedRat rest).map Neg.neg
  | '+' :: rest => parseUnsignedRat rest
  | l => parseUnsignedRat l

/-- Models Python `str.isdigit()` on the ASCII payloads of this protocol:
nonempty and all decimal digits. -/
def strIsDigit (s : String) : Bool :=
  !s.toList.isEmpty && s.toList.all Char.isDigit

/-- Models Python `int()` truncation toward zero applied to a float, as in
`str(int(temperature))`. -/
def pyTrunc (q : ℚ) : Int :=
  Int.tdiv q.num (q.den : Int)

/-- Substring test on character lists: some suffix of the haystack starts
with the needle. -/
def containsSub : List Char → List Char → Bool
  | needle, [] => needle.isEmpty
  | needle, h :: t => needle.isPrefixOf (h :: t) || containsSub needle t

/-- Models the Python `in` operator on strings, `needle in haystack`. -/
def strContains (haystack needle : String) : Bool :=
  containsSub needle.toList haystack.toList

/-! ## Message relay (mqtt_client.py, `asyncio.Queue` and `_on_message`) -/

/-- The relay queue.  `maxsize = 0` means unbounded, as for `asyncio.Queue`;
`asyncio.Queue.full()` is `maxsize > 0 and qsize() >= maxsize`. -/
structure MsgQueue (α : Type) where
  maxsize : Nat
  items : List α
deriving DecidableEq

/-- Models `asyncio.Queue.put_nowait`: `none` models the `QueueFull`
exception raised when the queue is full, otherwise the item is appended. -/
def MsgQueue.put_nowait (q : MsgQueue α) (x : α) : Option (MsgQueue α) :=
  if 0 < q.maxsize ∧ q.maxsize ≤ q.items.length then none
  else some { q with items := q.items ++ [x] }

/-- The queue as constructed in `BalluMQTTClient.__init__`:
`asyncio.Queue()` with the default `maxsize=0`, i.e. unbounded. -/
def initQueue : MsgQueue (String × String) :=
  { maxsize := 0, items := [] }

/-- Mirrors `BalluMQTTClient._on_message`: try `put_nowait`; on `QueueFull`
keep the queue unchanged, drop the event and emit the saturation warning
(the returned flag records whether the event was dropped). -/
def _on_message (q : MsgQueue (String × String)) (msg : String × String) :
    MsgQueue (String × String) × Bool :=
  match q.put_nowait msg with
  | some q2 => (q2, false)
  | none => (q, true)

/-- Folds `_on_message` over a burst of arriving events, counting drops. -/
def pushAll (q : MsgQueue (String × String)) :
    List (String × String) → MsgQueue (String × String) × Nat
  | [] => (q, 0)
  | m :: ms =>
    let r := _on_message q m
    let rest := pushAll r.1 ms
    (rest.1, (if r.2 then 1 else 0) + rest.2)

/-! ## Subscription registry (mqtt_client.py, `subscribe` and
`_process_messages`) -/

/-- Mirrors the registry update `self.subscriptions[topic] = callback`:
Python dict assignment replaces the value of an existing key in place and
otherwise appends a new entry (dicts preserve insertion order). -/
def subscribe {H : Type} : List (String × H) → String → H → List (String × H)
  | [], p, h => [(p, h)]
  | e :: rest, p, h =>
    if e.1 = p then (p, h) :: rest else e :: subscribe rest p h

/-- Handlers actually invoked when `_process_messages` handles one event:
the loop schedules one `call_soon_threadsafe` closure per matching entry,
but each closure reads the loop variable `callback` only after the loop has
finished, and the loop reassigns `callback` on every iteration, matching or
not — so every invocation uses the handler of the last registry entry
overall (when the registry is empty no closure is scheduled at all). -/
def invoked {H : Type} (subs : List (String × H)) (topic : String) : List H :=
  match subs.getLast? with
  | none => []
  | some last =>
    (subs.filter (fun e => _topic_matches e.1 topic)).map (fun _ => last.2)

/-! ## Publish (mqtt_client.py, `publish`) -/

/-- Outcome of the underlying `client.publish` network write: either it
completes, or it raises (the `except` branch of `publish`). -/
inductive WriteOutcome where
  | ok
  | err
deriving DecidableEq

/-- Mirrors `BalluMQTTClient.publish`: returns `(result, attemptedWrite)`.
When not connected it returns `False` before any I/O; when connected it
performs the write and returns `True` exactly when no exception occurred. -/
def publish (connected : Bool) (write : WriteOutcome) : Bool × Bool :=
  if connected = false then (false, false)
  else (if write = WriteOutcome.ok then true else false, true)

/-! ## Device state machine (climate.py, `BalluASP100Breezer`) -/

/-- The two HVAC modes the entity exposes. -/
inductive HVACMode where
  | off
  | fanOnly
deriving DecidableEq

/-- The mutable state of `BalluASP100Breezer`, as set up in `__init__`
(lines 100-115): semantic fields plus the per-field received flags.
Temperatures are modelled as exact rationals. -/
structure DeviceState where
  hvacMode : HVACMode
  targetTemperature : ℚ
  currentTemperature : Option ℚ
  fanMode : Option String
  presetMode : String
  currentMode : Int
  currentSpeed : Option String
  receivedMode : Bool
  receivedSpeed : Bool
  receivedTemperature : Bool
  receivedCurrentTemp : Bool
deriving DecidableEq

/-- The state built by `BalluASP100Breezer.__init__`. -/
def initState : DeviceState :=
  { hvacMode := HVACMode.off
    targetTemperature := 20
    currentTemperature := none
    fanMode := none
    presetMode := "none"
    currentMode := 0
    currentSpeed := none
    receivedMode := false
    receivedSpeed := false
    receivedTemperature := false
    receivedCurrentTemp := false }

/-- The fan-mode labels `_attr_fan_modes`. -/
def fanModes : List String :=
  ["Off", "S1", "S2", "S3", "S4", "S5", "S6", "S7"]

/-- The `speed_mapping` dict of `_update_fan_from_payload`: digit string to
label. -/
def speed_mapping (p : String) : Option String :=
  if p = "0" then some "Off"
  else if p = "1" then some "S1"
  else if p = "2" then some "S2"
  else if p = "3" then some "S3"
  else if p = "4" then some "S4"
  else if p = "5" then some "S5"
  else if p = "6" then some "S6"
  else if p = "7" then some "S7"
  else none

/-- Mirrors `_update_mode_from_payload`: parse the payload with `int`; on
success store the code and derive HVAC mode and preset from the table
(`PRESET_COMFORT = "comfort"`, `PRESET_AUTO = "auto"`, `PRESET_SLEEP =
"sleep"`, `PRESET_BOOST = "boost"`, `PRESET_ECO = "eco"`, `PRESET_NONE =
"none"`); a `ValueError` is caught and only logged (returned flag), the
state is left unchanged. -/
def _update_mode_from_payload (s : DeviceState) (payload : String) :
    DeviceState × Bool :=
  match pyParseInt payload with
  | none => (s, true)
  | some m =>
    ({ s with
        currentMode := m
        hvacMode := if m = 0 then HVACMode.off else HVACMode.fanOnly
        presetMode :=
          if m = 1 then "comfort"
          else if m = 2 then "auto"
          else if m = 3 then "sleep"
          else if m = 4 then "boost"
          else if m = 5 then "eco"
          else "none" }, false)

/-- Mirrors `_update_fan_from_payload`: a digit payload is looked up in
`speed_mapping` with fallback label `"Off"` while the raw digits are stored
as `_current_speed`; a non-digit payload is used directly as the label when
it is one of `_attr_fan_modes` (else `"Off"`), and the stored speed is the
label with `"S"` removed when it starts with `"S"`, else `"0"`. -/
def _update_fan_from_payload (s : DeviceState) (payload : String) :
    DeviceState :=
  if strIsDigit payload then
    { s with
        fanMode := some ((speed_mapping payload).getD "Off")
        currentSpeed := some payload }
  else
    let fm := if payload ∈ fanModes then payload else "Off"
    let cs :=
      if fm.toList.head? = some 'S' then String.mk (fm.toList.filter (fun x => x != 'S'))
      else "0"
    { s with fanMode := some fm, currentSpeed := some cs }

/-- Mirrors `_update_temperature_from_payload`: parse with `float`; on
failure (flag `true`) the prior value is retained. -/
def _update_temperature_from_payload (s : DeviceState) (payload : String) :
    DeviceState × Bool :=
  match pyFloat payload with
  | none => (s, true)
  | some t => ({ s with targetTemperature := t }, false)

/-- Mirrors `_update_current_temp_from_payload`. -/
def _update_current_temp_from_payload (s : DeviceState) (payload : String) :
    DeviceState × Bool :=
  match pyFloat payload with
  | none => (s, true)
  | some t => ({ s with currentTemperature := some t }, false)

/-- A representative concrete topic root `f"{TOPIC_PREFIX}/{DEVICE_TYPE}/{client_id}"`
with `TOPIC_PREFIX = "rusclimate"` and `DEVICE_TYPE = "69"` from const.py. -/
def topicBase : String :=
  "rusclimate/69/client1"

/-- Mirrors the `message_received` callback of `_subscribe_topics`: route on
substring tests of the topic, set the per-field received flag, then decode
the payload into the corresponding field. -/
def message_received (s : DeviceState) (topic payload : String) : DeviceState :=
  if strContains topic "mode" then
    (_update_mode_from_payload { s with receivedMode := true } payload).1
  else if strContains topic "speed" then
    _update_fan_from_payload { s with receivedSpeed := true } payload
  else if strContains topic "temperature" && !strContains topic "sensor" then
    (_update_temperature_from_payload { s with receivedTemperature := true } payload).1
  else if strContains topic "sensor/temperature" then
    (_update_current_temp_from_payload { s with receivedCurrentTemp := true } payload).1
  else s

/-- Mirrors `async_set_temperature`: the walrus guard skips a falsy (zero)
temperature; otherwise publish `str(int(temperature))` and optimistically
store the given value.  Returns the new state and the published payload. -/
def async_set_temperature (s : DeviceState) (temperature : ℚ) :
    DeviceState × Option String :=
  if temperature = 0 then (s, none)
  else ({ s with targetTemperature := temperature },
    some (toString (pyTrunc temperature)))

/-- Mirrors `async_set_hvac_mode`: `OFF` publishes `"0"` and resets code and
preset; `FAN_ONLY` publishes the stored code when positive, else the default
`1`, and re-derives the preset for codes 1-5 (otherwise the preset is left
unchanged).  Returns the new state and the published payload. -/
def async_set_hvac_mode (s : DeviceState) (hvac : HVACMode) :
    DeviceState × String :=
  match hvac with
  | HVACMode.off =>
    ({ s with hvacMode := HVACMode.off, currentMode := 0, presetMode := "none" }, "0")
  | HVACMode.fanOnly =>
    let modeToSet : Int := if s.currentMode > 0 then s.currentMode else 1
    ({ s with
        hvacMode := HVACMode.fanOnly
        currentMode := modeToSet
        presetMode :=
          if modeToSet = 1 then "comfort"
          else if modeToSet = 2 then "auto"
          else if modeToSet = 3 then "sleep"
          else if modeToSet = 4 then "boost"
          else if modeToSet = 5 then "eco"
          else s.presetMode }, toString modeToSet)

/-- The `speed_mapping` dict of `async_set_fan_mode`: label to digit
string. -/
def speedToCode (label : String) : Option String :=
  if label = "Off" then some "0"
  else if label = "S1" then some "1"
  else if label = "S2" then some "2"
  else if label = "S3" then some "3"
  else if label = "S4" then some "4"
  else if label = "S5" then some "5"
  else if label = "S6" then some "6"
  else if label = "S7" then some "7"
  else none

/-- Mirrors `async_set_fan_mode`: publish the mapped code (default `"0"`),
store the given label verbatim and the published code.  Returns the new
state and the published payload. -/
def async_set_fan_mode (s : DeviceState) (fanMode : String) :
    DeviceState × String :=
  let speedValue := (speedToCode fanMode).getD "0"
  ({ s with fanMode := some fanMode, currentSpeed := some speedValue }, speedValue)

/-- The `preset_mapping` dict of `async_set_preset_mode`. -/
def preset_mapping (preset : String) : Option String :=
  if preset = "comfort" then some "1"
  else if preset = "auto" then some "2"
  else if preset = "sleep" then some "3"
  else if preset = "boost" then some "4"
  else if preset = "eco" then some "5"
  else none

/-- Mirrors `async_set_preset_mode`: publish the mapped code (default
`"1"`), store the given preset, force `FAN_ONLY`, and store `int(mode_value)`
(the `int` call cannot fail on the dict's values; `0` stands for its
unreachable failure branch).  Returns the new state and the payload. -/
def async_set_preset_mode (s : DeviceState) (preset : String) :
    DeviceState × String :=
  let modeValue := (preset_mapping preset).getD "1"
  ({ s with
      presetMode := preset
      hvacMode := HVACMode.fanOnly
      currentMode := (pyParseInt modeValue).getD 0 }, modeValue)

/-- Mirrors the `fan_mode` property: `"Off"` while the internal field is
still `None`, the stored label afterwards. -/
def fan_mode (s : DeviceState) : String :=
  s.fanMode.getD "Off"

/-- The semantic device state the round-trip claim compares: power, preset,
fan label and code, target temperature. -/
def semState (s : DeviceState) : HVACMode × String × Option String × Option String × ℚ :=
  (s.hvacMode, s.presetMode, s.fanMode, s.currentSpeed, s.targetTemperature)

/-- The speed table of §4.4 as a lock-step predicate on the stored fan label
and speed code: code 0 with `"Off"`, code k with `"Sk"`. -/
def fanAgree (s : DeviceState) : Prop :=
  (s.fanMode, s.currentSpeed) ∈
    ([(some "Off", some "0"), (some "S1", some "1"), (some "S2", some "2"),
      (some "S3", some "3"), (some "S4", some "4"), (some "S5", some "5"),
      (some "S6", some "6"), (some "S7", some "7")] :
      List (Option String × Option String))

instance (s : DeviceState) : Decidable (fanAgree s) := by
  unfold fanAgree
  infer_instance

/-! ## Claim C1: the trailing `#` wildcard -/

/-- C1 counterexample: the claim asserts `matches("a/#", "a") == true`, but
`_topic_matches` checks `i >= len(topic_parts)` before looking at the `#`
segment, so a `#` with zero trailing topic segments fails to match. -/
theorem C1_counterexample : _topic_matches "a/#" "a" = false := by decide

/-- C1 (amended): a final `#` pattern segment matches one or more trailing
topic segments: when the pattern segments before `#` equal the topic's
leading segments, the match succeeds exactly when at least one topic
segment remains at the position of the `#`; in particular
`matches("a/#", "a/b/c") == true` while `matches("a/#", "a") == false`. -/
theorem C1_amended (ps ts : List String) (h1 : ts ≠ []) (h2 : "#" ∉ ps) :
    matchParts (ps ++ ["#"]) (ps ++ ts) = true ∧
    matchParts (ps ++ ["#"]) ps = false ∧
    _topic_matches "a/#" "a/b/c" = true ∧
    _topic_matches "a/#" "a" = false := by
  refine ⟨?_, ?_, by decide, by decide⟩
  · induction ps with
    | nil =>
      cases ts with
      | nil => exact absurd rfl h1
      | cons t tts => simp [matchParts]
    | cons p pp ih =>
      simp only [List.mem_cons, not_or] at h2
      have hp : ¬p = "#" := fun h => h2.1 h.symm
      simp only [List.cons_append, matchParts]
      by_cases hplus : p = "+"
      · simpa [hplus] using ih h2.2
      · simpa [hplus, hp] using ih h2.2
  · induction ps with
    | nil => simp [matchParts]
    | cons p pp ih =>
      simp only [List.mem_cons, not_or] at h2
      have hp : ¬p = "#" := fun h => h2.1 h.symm
      simp only [List.cons_append, matchParts]
      by_cases hplus : p = "+"
      · simpa [hplus] using ih h2.2
      · simpa [hplus, hp] using ih h2.2

/-- Closed instance of `C1_amended`, discharging its hypotheses at
`ps = ["a"]`, `ts = ["b", "c"]`. -/
theorem C1_amended_witness :
    ((["b", "c"] : List String) ≠ [] ∧ "#" ∉ (["a"] : List String)) ∧
    (matchParts (["a"] ++ ["#"]) (["a"] ++ ["b", "c"]) = true ∧
     matchParts (["a"] ++ ["#"]) ["a"] = false ∧
     _topic_matches "a/#" "a/b/c" = true ∧
     _topic_matches "a/#" "a" = false) :=
  ⟨⟨by decide, by decide⟩, C1_amended ["a"] ["b", "c"] (by decide) (by decide)⟩

/-! ## Claim C2: power off then on -/

/-- C2 counterexample: after `ingestMode("3")` the stored code is `3`, yet
`issuePower(off)` writes `0` into `_current_mode`, so the following
`issuePower(on)` publishes the default `"1"` and stores code `1` instead of
restoring `3`. -/
theorem C2_counterexample :
    (_update_mode_from_payload initState "3").1.currentMode = 3 ∧
    (async_set_hvac_mode
      (async_set_hvac_mode (_update_mode_from_payload initState "3").1
        HVACMode.off).1 HVACMode.fanOnly).1.currentMode = 1 ∧
    (async_set_hvac_mode
      (async_set_hvac_mode (_update_mode_from_payload initState "3").1
        HVACMode.off).1 HVACMode.fanOnly).2 = "1" := by decide

/-- C2 (amended): `issuePower(off)` overwrites the stored operatingCode with
`0`, so a subsequent `issuePower(on)` always publishes the hardcoded default
`"1"` and stores operatingCode `1` with preset comfort, for every prior
state — the last observed non-zero code is never restored. -/
theorem C2_amended (s : DeviceState) :
    (async_set_hvac_mode (async_set_hvac_mode s HVACMode.off).1
      HVACMode.fanOnly).1.currentMode = 1 ∧
    (async_set_hvac_mode (async_set_hvac_mode s HVACMode.off).1
      HVACMode.fanOnly).2 = "1" ∧
    (async_set_hvac_mode (async_set_hvac_mode s HVACMode.off).1
      HVACMode.fanOnly).1.presetMode = "comfort" :=
  ⟨rfl, rfl, rfl⟩

/-! ## Claim C3: relay queue boundedness -/

/-- C3 counterexample: the queue built by `BalluMQTTClient.__init__` is
`asyncio.Queue()` with `maxsize = 0`, i.e. unbounded — there is no capacity
`N` at which a push is rejected: four rapid pushes on the fresh queue are
all accepted (zero drops) and all four events sit in the queue in arrival
order. -/
theorem C3_counterexample :
    initQueue.maxsize = 0 ∧
    (pushAll initQueue
      [("t", "1"), ("t", "2"), ("t", "3"), ("t", "4")]).2 = 0 ∧
    (pushAll initQueue
      [("t", "1"), ("t", "2"), ("t", "3"), ("t", "4")]).1.items =
      [("t", "1"), ("t", "2"), ("t", "3"), ("t", "4")] := by decide

/-- Pushing any burst into an unbounded relay queue drops nothing and
appends the events in arrival order. -/
theorem pushAll_maxsize_zero (es : List (String × String)) :
    ∀ q : MsgQueue (String × String), q.maxsize = 0 →
      (pushAll q es).2 = 0 ∧ (pushAll q es).1.items = q.items ++ es := by
  induction es with
  | nil =>
    intro q h
    simp [pushAll]
  | cons e es ih =>
    intro q h
    have hput : q.put_nowait e = some { q with items := q.items ++ [e] } := by
      simp [MsgQueue.put_nowait, h]
    have h2 := ih { q with items := q.items ++ [e] } h
    simp only [pushAll, _on_message, hput]
    simpa using h2

/-- C3 (amended): the relay queue is unbounded (`asyncio.Queue()` with its
default `maxsize = 0`), so `push` never rejects: for every burst of events
pushed before the consumer runs — in particular N+1 events — zero pushes
are dropped and all events are enqueued for the consumer in their original
arrival order. -/
theorem C3_amended (es : List (String × String)) :
    (pushAll initQueue es).2 = 0 ∧ (pushAll initQueue es).1.items = es := by
  simpa using pushAll_maxsize_zero es initQueue rfl

/-! ## Claim C4: fan label and speed code lock-step -/

/-- C4 counterexample: `ingestSpeed("9")` takes the digit branch, where the
label falls back to `"Off"` but `_current_speed` keeps the raw `"9"` — the
stored pair is outside the speed table, so the label and the code are not
in lock-step and the unrecognized input did not fall back to code 0. -/
theorem C4_counterexample :
    ¬fanAgree (_update_fan_from_payload initState "9") ∧
    (_update_fan_from_payload initState "9").fanMode = some "Off" ∧
    (_update_fan_from_payload initState "9").currentSpeed = some "9" := by
  refine ⟨by decide, by decide, by decide⟩

/-- The lock-step predicate only reads the fan label and the speed code. -/
theorem fanAgree_congr (s₁ s₂ : DeviceState) (hf : s₁.fanMode = s₂.fanMode)
    (hc : s₁.currentSpeed = s₂.currentSpeed) : fanAgree s₁ ↔ fanAgree s₂ := by
  unfold fanAgree
  rw [hf, hc]

/-- The fan fields written by `_update_fan_from_payload` depend only on the
payload, not on the prior state. -/
theorem fan_update_pair (s : DeviceState) (p : String) :
    (_update_fan_from_payload s p).fanMode =
      (_update_fan_from_payload initState p).fanMode ∧
    (_update_fan_from_payload s p).currentSpeed =
      (_update_fan_from_payload initState p).currentSpeed := by
  unfold _update_fan_from_payload
  split <;> simp

/-- C4 (amended): the stored fan label and speed code agree with the speed
table (code 0 with `"Off"`, code k with `"Sk"`) after `ingestSpeed` for
every digit payload in 0..7 and for every non-digit payload (labelled forms
are decoded, other values fall back to `"Off"`/code 0), and after
`issueFanSpeed` for every label of the table; digit payloads outside 0..7
break the lock-step (label `"Off"` with the raw digits kept as the code),
and `issueFanSpeed` stores an unrecognized label verbatim with code 0. -/
theorem C4_amended (s : DeviceState) (payload label : String)
    (hp : payload ∈ (["0", "1", "2", "3", "4", "5", "6", "7"] : List String) ∨
      strIsDigit payload = false)
    (hl : label ∈ fanModes) :
    fanAgree (_update_fan_from_payload s payload) ∧
    fanAgree (async_set_fan_mode s label).1 := by
  constructor
  · rw [fanAgree_congr _ _ (fan_update_pair s payload).1 (fan_update_pair s payload).2]
    rcases hp with hp | hp
    · simp only [List.mem_cons, List.not_mem_nil, or_false] at hp
      rcases hp with rfl | rfl | rfl | rfl | rfl | rfl | rfl | rfl <;> decide
    · by_cases hm : payload ∈ fanModes
      · simp only [fanModes, List.mem_cons, List.not_mem_nil, or_false] at hm
        rcases hm with rfl | rfl | rfl | rfl | rfl | rfl | rfl | rfl <;> decide
      · unfold _update_fan_from_payload
        simp only [hp, Bool.false_eq_true, if_false, hm, if_neg]
        decide
  · rw [fanAgree_congr (async_set_fan_mode s label).1
      (async_set_fan_mode initState label).1 rfl rfl]
    simp only [fanModes, List.mem_cons, List.not_mem_nil, or_false] at hl
    rcases hl with rfl | rfl | rfl | rfl | rfl | rfl | rfl | rfl <;> decide

/-- Closed instance of `C4_amended`, discharging its hypotheses at
payload `"3"` and label `"S5"`. -/
theorem C4_amended_witness :
    (("3" ∈ (["0", "1", "2", "3", "4", "5", "6", "7"] : List String) ∨
      strIsDigit "3" = false) ∧ "S5" ∈ fanModes) ∧
    (fanAgree (_update_fan_from_payload initState "3") ∧
      fanAgree (async_set_fan_mode initState "S5").1) :=
  ⟨⟨Or.inl (by decide), by decide⟩,
    C4_amended initState "3" "S5" (Or.inl (by decide)) (by decide)⟩

/-! ## Claim C5: encode/decode round-trip -/

/-- C5 counterexample: the round-trip fails as stated.  `issuePreset(none)`
publishes the default `"1"` but stores preset `"none"`, and re-ingesting
`"1"` flips the preset to `"comfort"`; `issueFanSpeed("weird")` stores the
unrecognized label verbatim but publishes `"0"`, and re-ingesting `"0"`
flips the label to `"Off"`; `issueTargetTemperature(20.5)` stores 20.5 but
publishes the truncated `"20"`, and re-ingesting `"20"` drops the
fraction. -/
theorem C5_counterexample :
    semState (_update_mode_from_payload (async_set_preset_mode initState "none").1
      (async_set_preset_mode initState "none").2).1 ≠
      semState (async_set_preset_mode initState "none").1 ∧
    semState (_update_fan_from_payload (async_set_fan_mode initState "weird").1
      (async_set_fan_mode initState "weird").2) ≠
      semState (async_set_fan_mode initState "weird").1 ∧
    (async_set_temperature initState (mkRat 41 2)).2 = some "20" ∧
    semState (_update_temperature_from_payload
      (async_set_temperature initState (mkRat 41 2)).1 "20").1 ≠
      semState (async_set_temperature initState (mkRat 41 2)).1 :=
  ⟨by decide, by decide, by decide, by decide⟩

/-- C5 (amended): the round-trip holds for recognized inputs: for every
state, issuing a preset among the five mapped presets, a fan label from the
speed table, or an integer target temperature in the clamped range [5, 25],
and then ingesting the published wire payload, yields the same semantic
state (power, preset, fan label/code, target temperature) as the issue
alone.  It fails for `PRESET_NONE`, for unrecognized fan labels, and for
fractional temperatures (see the counterexample). -/
theorem C5_amended (s : DeviceState) (preset label : String) (t : Int)
    (hpre : preset ∈ (["comfort", "auto", "sleep", "boost", "eco"] : List String))
    (hl : label ∈ fanModes) (h5 : 5 ≤ t) (h25 : t ≤ 25) :
    semState (_update_mode_from_payload (async_set_preset_mode s preset).1
      (async_set_preset_mode s preset).2).1 =
      semState (async_set_preset_mode s preset).1 ∧
    semState (_update_fan_from_payload (async_set_fan_mode s label).1
      (async_set_fan_mode s label).2) =
      semState (async_set_fan_mode s label).1 ∧
    (async_set_temperature s (t : ℚ)).2 = some (toString (pyTrunc (t : ℚ))) ∧
    semState (_update_temperature_from_payload (async_set_temperature s (t : ℚ)).1
      (toString (pyTrunc (t : ℚ)))).1 =
      semState (async_set_temperature s (t : ℚ)).1 := by
  refine ⟨?_, ?_, ?_, ?_⟩
  · simp only [List.mem_cons, List.not_mem_nil, or_false] at hpre
    rcases hpre with rfl | rfl | rfl | rfl | rfl <;> rfl
  · simp only [fanModes, List.mem_cons, List.not_mem_nil, or_false] at hl
    rcases hl with rfl | rfl | rfl | rfl | rfl | rfl | rfl | rfl <;> rfl
  · interval_cases t <;> rfl
  · interval_cases t <;> rfl

/-- Closed instance of `C5_amended`, discharging its hypotheses at preset
`"auto"`, label `"S3"`, temperature 20. -/
theorem C5_amended_witness :
    ("auto" ∈ (["comfort", "auto", "sleep", "boost", "eco"] : List String) ∧
      "S3" ∈ fanModes ∧ (5 : Int) ≤ 20 ∧ (20 : Int) ≤ 25) ∧
    (semState (_update_mode_from_payload (async_set_preset_mode initState "auto").1
      (async_set_preset_mode initState "auto").2).1 =
      semState (async_set_preset_mode initState "auto").1 ∧
    semState (_update_fan_from_payload (async_set_fan_mode initState "S3").1
      (async_set_fan_mode initState "S3").2) =
      semState (async_set_fan_mode initState "S3").1 ∧
    (async_set_temperature initState ((20 : Int) : ℚ)).2 =
      some (toString (pyTrunc ((20 : Int) : ℚ))) ∧
    semState (_update_temperature_from_payload
      (async_set_temperature initState ((20 : Int) : ℚ)).1
      (toString (pyTrunc ((20 : Int) : ℚ)))).1 =
      semState (async_set_temperature initState ((20 : Int) : ℚ)).1) :=
  ⟨⟨by decide, by decide, by decide, by decide⟩,
    C5_amended initState "auto" "S3" 20 (by decide) (by decide)
      (by decide) (by decide)⟩

/-! ## Claim C6: ingestMode table and decode failure -/

/-- C6: `ingestMode` parses the payload as an integer and maps it per the
table — 0 gives power off, preset none; 1 comfort; 2 auto; 3 sleep;
4 boost; 5 eco; any other integer gives power on, preset none — always
stores the parsed code without raising, while a non-numeric payload leaves
the state unchanged and raises only the decode diagnostic. -/
theorem C6_thm (s : DeviceState) (payload : String) :
    (pyParseInt payload = some 0 →
      (_update_mode_from_payload s payload).1.hvacMode = HVACMode.off ∧
      (_update_mode_from_payload s payload).1.presetMode = "none") ∧
    (pyParseInt payload = some 1 →
      (_update_mode_from_payload s payload).1.hvacMode = HVACMode.fanOnly ∧
      (_update_mode_from_payload s payload).1.presetMode = "comfort") ∧
    (pyParseInt payload = some 2 →
      (_update_mode_from_payload s payload).1.hvacMode = HVACMode.fanOnly ∧
      (_update_mode_from_payload s payload).1.presetMode = "auto") ∧
    (pyParseInt payload = some 3 →
      (_update_mode_from_payload s payload).1.hvacMode = HVACMode.fanOnly ∧
      (_update_mode_from_payload s payload).1.presetMode = "sleep") ∧
    (pyParseInt payload = some 4 →
      (_update_mode_from_payload s payload).1.hvacMode = HVACMode.fanOnly ∧
      (_update_mode_from_payload s payload).1.presetMode = "boost") ∧
    (pyParseInt payload = some 5 →
      (_update_mode_from_payload s payload).1.hvacMode = HVACMode.fanOnly ∧
      (_update_mode_from_payload s payload).1.presetMode = "eco") ∧
    (∀ n : Int, pyParseInt payload = some n →
      n ∉ ([0, 1, 2, 3, 4, 5] : List Int) →
      (_update_mode_from_payload s payload).1.hvacMode = HVACMode.fanOnly ∧
      (_update_mode_from_payload s payload).1.presetMode = "none") ∧
    (∀ n : Int, pyParseInt payload = some n →
      (_update_mode_from_payload s payload).1.currentMode = n ∧
      (_update_mode_from_payload s payload).2 = false) ∧
    (pyParseInt payload = none →
      _update_mode_from_payload s payload = (s, true)) := by
  cases hp : pyParseInt payload with
  | none => simp [_update_mode_from_payload, hp]
  | some m =>
    simp only [_update_mode_from_payload, hp, Option.some.injEq]
    refine ⟨?_, ?_, ?_, ?_, ?_, ?_, ?_, ?_, ?_⟩
    · rintro rfl; exact ⟨rfl, rfl⟩
    · rintro rfl; exact ⟨rfl, rfl⟩
    · rintro rfl; exact ⟨rfl, rfl⟩
    · rintro rfl; exact ⟨rfl, rfl⟩
    · rintro rfl; exact ⟨rfl, rfl⟩
    · rintro rfl; exact ⟨rfl, rfl⟩
    · rintro n rfl hmem
      simp only [List.mem_cons, List.not_mem_nil, or_false, not_or] at hmem
      obtain ⟨n0, n1, n2, n3, n4, n5⟩ := hmem
      constructor
      · simp [n0]
      · simp [n0, n1, n2, n3, n4, n5]
    · rintro n rfl; exact ⟨rfl, trivial⟩
    · intro h; exact absurd h (by simp)

/-- Closed instance of `C6_thm`, exercising the table at payload `"2"` and
the decode-failure path at payload `"x"`. -/
theorem C6_witness :
    (pyParseInt "2" = some 2 ∧ pyParseInt "x" = none) ∧
    ((_update_mode_from_payload initState "2").1.hvacMode = HVACMode.fanOnly ∧
      (_update_mode_from_payload initState "2").1.presetMode = "auto") ∧
    _update_mode_from_payload initState "x" = (initState, true) :=
  ⟨⟨by decide, by decide⟩,
    (C6_thm initState "2").2.2.1 (by decide),
    (C6_thm initState "x").2.2.2.2.2.2.2.2 (by decide)⟩

/-! ## Claim C7: publish gated on connection -/

/-- C7: `publish` returns failure immediately and performs no network write
when the client is not connected; when connected it performs the write and
succeeds exactly when the write raised no error. -/
theorem C7_thm (connected : Bool) (w : WriteOutcome) :
    (connected = false → publish connected w = (false, false)) ∧
    (connected = true →
      (publish connected w).2 = true ∧
      ((publish connected w).1 = true ↔ w = WriteOutcome.ok)) := by
  constructor
  · rintro rfl
    rfl
  · rintro rfl
    cases w <;> simp [publish]

/-- Closed instance of `C7_thm` at both connection states. -/
theorem C7_witness :
    publish false WriteOutcome.ok = (false, false) ∧
    ((publish true WriteOutcome.ok).2 = true ∧
      ((publish true WriteOutcome.ok).1 = true ↔
        WriteOutcome.ok = WriteOutcome.ok)) :=
  ⟨(C7_thm false WriteOutcome.ok).1 rfl, (C7_thm true WriteOutcome.ok).2 rfl⟩

/-! ## Claim C8: subscribe replaces, no double delivery -/

/-- C8 counterexample: the replace-not-duplicate part holds — after two
`subscribe` calls on `"a/+"` the registry `[("a/+", 0), ("b", 9)]` carries
exactly one entry for that pattern, holding the second handler `2` — and
the event `"a/x"` matches only that pattern, so exactly one invocation is
scheduled; but the scheduled closure late-binds the loop variable
`callback`, which after the loop holds the handler of the last registry
entry overall, the non-matching `("b", 9)`: the single delivery runs
handler `9`, not the registered handler `2`. -/
theorem C8_counterexample :
    _topic_matches "a/+" "a/x" = true ∧
    _topic_matches "b" "a/x" = false ∧
    (subscribe (subscribe ([("a/+", 0), ("b", 9)] : List (String × Nat))
      "a/+" 1) "a/+" 2).filter (fun e => e.1 == "a/+") = [("a/+", 2)] ∧
    invoked (subscribe (subscribe ([("a/+", 0), ("b", 9)] : List (String × Nat))
      "a/+" 1) "a/+" 2) "a/x" = [9] :=
  ⟨by decide, by decide, by decide, by decide⟩

/-- Subscribing a pattern that is not yet a registry key appends the new
entry at the end, as Python dict insertion does. -/
theorem subscribe_not_mem {H : Type} (subs : List (String × H)) (p : String)
    (h : H) (hfresh : p ∉ subs.map Prod.fst) :
    subscribe subs p h = subs ++ [(p, h)] := by
  induction subs with
  | nil => rfl
  | cons a rest ih =>
    simp only [List.map_cons, List.mem_cons, not_or] at hfresh
    have hap : a.1 ≠ p := fun hc => hfresh.1 hc.symm
    simp only [subscribe, if_neg hap, List.cons_append]
    rw [ih hfresh.2]

/-- Re-subscribing a pattern whose entry sits at the end of the registry
replaces that final entry in place. -/
theorem subscribe_append_self {H : Type} (subs : List (String × H))
    (p : String) (h1 h2 : H) (hfresh : p ∉ subs.map Prod.fst) :
    subscribe (subs ++ [(p, h1)]) p h2 = subs ++ [(p, h2)] := by
  induction subs with
  | nil => simp [subscribe]
  | cons a rest ih =>
    simp only [List.map_cons, List.mem_cons, not_or] at hfresh
    have hap : a.1 ≠ p := fun hc => hfresh.1 hc.symm
    simp only [List.cons_append, subscribe, if_neg hap]
    exact congrArg (List.cons a) (ih hfresh.2)

/-- C8 (amended): subscribing twice with the same pattern and different
handlers replaces, never duplicates: the registry holds exactly one entry
for that pattern, holding the second handler, and an event matching only
that pattern triggers exactly one handler invocation (no double delivery).
Because the scheduled closure late-binds the loop variable, that single
invocation runs the handler of the last registry entry overall; it is the
second handler whenever the pattern was not registered before the two
`subscribe` calls, since its entry then sits last in the registry — with a
non-matching entry after the pattern's, the invocation runs that entry's
handler instead (see the counterexample). -/
theorem C8_thm {H : Type} (subs : List (String × H)) (p t : String)
    (h1 h2 : H) (hfresh : p ∉ subs.map Prod.fst)
    (hm : _topic_matches p t = true)
    (hoth : ∀ e ∈ subs, e.1 ≠ p → _topic_matches e.1 t = false) :
    (subscribe (subscribe subs p h1) p h2).filter
      (fun e => e.1 == p) = [(p, h2)] ∧
    (subscribe (subscribe subs p h1) p h2).filter
      (fun e => _topic_matches e.1 t) = [(p, h2)] ∧
    invoked (subscribe (subscribe subs p h1) p h2) t = [h2] := by
  have happend : subscribe (subscribe subs p h1) p h2 = subs ++ [(p, h2)] := by
    rw [subscribe_not_mem subs p h1 hfresh, subscribe_append_self subs p h1 h2 hfresh]
  have hkeys : ∀ e ∈ subs, (e.1 == p) = false := by
    intro e he
    rcases hb : e.1 == p with _ | _
    · rfl
    · exact absurd (eq_of_beq hb ▸ List.mem_map.mpr ⟨e, he, rfl⟩) hfresh
  have hnomatch : ∀ e ∈ subs, _topic_matches e.1 t = false := by
    intro e he
    by_cases hep : e.1 = p
    · exact absurd (hep ▸ List.mem_map.mpr ⟨e, he, rfl⟩) hfresh
    · exact hoth e he hep
  have hfilk : (subs ++ [(p, h2)]).filter (fun e => e.1 == p) = [(p, h2)] := by
    rw [List.filter_append,
      List.filter_eq_nil_iff.mpr (fun e he => by simp [hkeys e he])]
    simp
  have hfilm : (subs ++ [(p, h2)]).filter
      (fun e => _topic_matches e.1 t) = [(p, h2)] := by
    rw [List.filter_append,
      List.filter_eq_nil_iff.mpr (fun e he => by simp [hnomatch e he])]
    simp [hm]
  refine ⟨by rw [happend, hfilk], by rw [happend, hfilm], ?_⟩
  unfold invoked
  rw [happend, List.getLast?_concat, hfilm]
  rfl

/-- Closed instance of `C8_thm` on the empty registry, pattern `"a/+"`,
event topic `"a/b"`: the fresh double subscribe leaves one entry holding
the second handler, which is the registry's last entry, so the single
delivery does run the second handler. -/
theorem C8_witness :
    ("a/+" ∉ (([] : List (String × Nat)).map Prod.fst) ∧
      _topic_matches "a/+" "a/b" = true) ∧
    ((subscribe (subscribe ([] : List (String × Nat)) "a/+" 0) "a/+" 1).filter
      (fun e => e.1 == "a/+") = [("a/+", 1)] ∧
    (subscribe (subscribe ([] : List (String × Nat)) "a/+" 0) "a/+" 1).filter
      (fun e => _topic_matches e.1 "a/b") = [("a/+", 1)] ∧
    invoked (subscribe (subscribe ([] : List (String × Nat)) "a/+" 0) "a/+" 1)
      "a/b" = [1]) :=
  ⟨⟨by decide, by decide⟩,
    C8_thm ([] : List (String × Nat)) "a/+" "a/b" 0 1 (by decide) (by decide)
      (by intro e he; exact absurd he (List.not_mem_nil e))⟩

/-! ## Claim C9: receipt flags set before decode -/

/-- C9: for each of the four subscribed state topics, the corresponding
received flag is set before the payload is decoded, so it is `true` after
the event even when the payload fails to decode, in which case the field's
value (and everything else) is left unchanged. -/
theorem C9_thm (s : DeviceState) (payload : String) :
    (message_received s (topicBase ++ "/state/mode") payload).receivedMode = true ∧
    (pyParseInt payload = none →
      message_received s (topicBase ++ "/state/mode") payload =
        { s with receivedMode := true }) ∧
    (message_received s (topicBase ++ "/state/speed") payload).receivedSpeed = true ∧
    (message_received s (topicBase ++ "/state/temperature")
      payload).receivedTemperature = true ∧
    (pyFloat payload = none →
      message_received s (topicBase ++ "/state/temperature") payload =
        { s with receivedTemperature := true }) ∧
    (message_received s (topicBase ++ "/state/sensor/temperature")
      payload).receivedCurrentTemp = true ∧
    (pyFloat payload = none →
      message_received s (topicBase ++ "/state/sensor/temperature") payload =
        { s with receivedCurrentTemp := true }) := by
  have hm1 : strContains (topicBase ++ "/state/mode") "mode" = true := by decide
  have hs1 : strContains (topicBase ++ "/state/speed") "mode" = false := by decide
  have hs2 : strContains (topicBase ++ "/state/speed") "speed" = true := by decide
  have ht1 : strContains (topicBase ++ "/state/temperature") "mode" = false := by decide
  have ht2 : strContains (topicBase ++ "/state/temperature") "speed" = false := by decide
  have ht3 : strContains (topicBase ++ "/state/temperature") "temperature" = true := by
    decide
  have ht4 : strContains (topicBase ++ "/state/temperature") "sensor" = false := by decide
  have hc1 : strContains (topicBase ++ "/state/sensor/temperature") "mode" = false := by
    decide
  have hc2 : strContains (topicBase ++ "/state/sensor/temperature") "speed" = false := by
    decide
  have hc3 : strContains (topicBase ++ "/state/sensor/temperature") "sensor" = true := by
    decide
  have hc4 : strContains (topicBase ++ "/state/sensor/temperature")
      "sensor/temperature" = true := by decide
  refine ⟨?_, ?_, ?_, ?_, ?_, ?_, ?_⟩
  · simp only [message_received, hm1, if_true]
    cases hp : pyParseInt payload <;> simp [_update_mode_from_payload, hp]
  · intro hp
    simp [message_received, hm1, _update_mode_from_payload, hp]
  · simp only [message_received, hs1, Bool.false_eq_true, if_false, hs2, if_true]
    unfold _update_fan_from_payload
    split
    · simp
    · simp
  · simp only [message_received, ht1, ht2, Bool.false_eq_true, if_false, ht3, ht4,
      Bool.not_false, Bool.and_true, if_true]
    cases hp : pyFloat payload <;> simp [_update_temperature_from_payload, hp]
  · intro hp
    simp [message_received, ht1, ht2, ht3, ht4, _update_temperature_from_payload, hp]
  · simp only [message_received, hc1, hc2, hc3, hc4, Bool.false_eq_true, if_false,
      Bool.not_true, Bool.and_false, if_true]
    cases hp : pyFloat payload <;> simp [_update_current_temp_from_payload, hp]
  · intro hp
    simp [message_received, hc1, hc2, hc3, hc4, _update_current_temp_from_payload, hp]

/-- Closed instance of `C9_thm` at the undecodable payload `"x"`. -/
theorem C9_witness :
    (pyParseInt "x" = none ∧ pyFloat "x" = none) ∧
    message_received initState (topicBase ++ "/state/mode") "x" =
      { initState with receivedMode := true } ∧
    message_received initState (topicBase ++ "/state/temperature") "x" =
      { initState with receivedTemperature := true } ∧
    message_received initState (topicBase ++ "/state/sensor/temperature") "x" =
      { initState with receivedCurrentTemp := true } ∧
    (message_received initState (topicBase ++ "/state/speed") "x").receivedSpeed
      = true :=
  ⟨⟨by decide, by decide⟩,
    (C9_thm initState "x").2.1 (by decide),
    (C9_thm initState "x").2.2.2.2.1 (by decide),
    (C9_thm initState "x").2.2.2.2.2.2 (by decide),
    (C9_thm initState "x").2.2.1⟩

/-! ## Claim C10: fan_mode accessor default -/

/-- C10: before any speed message arrives the internal fan-mode field is
`None` and the public accessor returns `"Off"`; after any speed update the
accessor returns exactly the stored label. -/
theorem C10_thm (s : DeviceState) (payload lbl : String)
    (h : (_update_fan_from_payload s payload).fanMode = some lbl) :
    initState.fanMode = none ∧ fan_mode initState = "Off" ∧
    fan_mode (_update_fan_from_payload s payload) = lbl := by
  refine ⟨rfl, rfl, ?_⟩
  unfold fan_mode
  rw [h]
  rfl

/-- Closed instance of `C10_thm` at payload `"3"`. -/
theorem C10_witness :
    (_update_fan_from_payload initState "3").fanMode = some "S3" ∧
    (initState.fanMode = none ∧ fan_mode initState = "Off" ∧
      fan_mode (_update_fan_from_payload initState "3") = "S3") :=
  ⟨by decide, C10_thm initState "3" "S3" (by decide)⟩

end BalluSpec
